import Mathlib

/-
  Verification development for the SIAI Compliance Platform.

  The data model follows packages/database/schema.sql; DECIMAL(5,4)
  columns are embedded as natural numbers scaled by 10^4, timestamps as
  natural numbers, UUIDs as natural numbers.  Operations of the learning
  core that the repository specifies but whose executable code is not in
  the repository snapshot are modelled from the specification and marked
  as such in their doc comments.
-/

namespace SIAI

/-- Severity levels of compliance_findings.severity and
risk_patterns.avg_severity in schema.sql, totally ordered for scoring. -/
inductive Severity where
  | critical
  | high
  | medium
  | low
  | info
deriving DecidableEq, Repr

/-- Outcome of a feedback event applied to a pattern: the delta carried by
a Pattern Store upsert. -/
inductive Outcome where
  | true_positive
  | false_positive
deriving DecidableEq, Repr

/-- Row of the risk_patterns table (schema.sql).  precision_score and
confidence_score are DECIMAL(5,4) columns, embedded as values scaled by
10^4 (none embeds SQL NULL). -/
structure RiskPattern where
  pattern_key : String
  pattern_description : String
  framework : String
  document_type : Option String
  risk_indicator : String
  frequency_observed : Nat
  true_positive_count : Nat
  false_positive_count : Nat
  precision_score : Option Nat
  confidence_score : Option Nat
  avg_severity : Option Severity
  learned_rule : String
  remediation_template : String
deriving DecidableEq, Repr

/-- Recompute precision_score from the two counters, as documented on the
precision_score column of schema.sql: true_positive / (true_positive +
false_positive), NULL when the denominator is zero.  The DECIMAL(5,4)
column holds the quotient rounded half-up to 4 decimal places, i.e. the
scaled value round(10^4 * tp / (tp + fp)). -/
def recomputePrecision (tp fp : Nat) : Option Nat :=
  if tp + fp = 0 then none
  else some ((20000 * tp + (tp + fp)) / (2 * (tp + fp)))

/-- Minimum-sample threshold gating pattern confidence.  Modelled from the
spec: the exact value is a configuration knob; the spec only requires that
patterns under it are never surfaced by the Matcher. -/
def minSampleThreshold : Nat := 3

/-- Modelled from the spec: saturating confidence function of
frequency_observed, scaled by 10^4.  Monotone, bounded strictly below 1,
and zero under the minimum-sample threshold. -/
def recomputeConfidence (freq : Nat) : Nat :=
  if freq < minSampleThreshold then 0 else 10000 - 10000 / (freq + 1)

/-- Numeric rank of a severity, used for the running weighted average. -/
def severityRank : Severity → Nat
  | .critical => 4
  | .high => 3
  | .medium => 2
  | .low => 1
  | .info => 0

/-- Inverse of severityRank, clamped. -/
def severityOfRank (n : Nat) : Severity :=
  if 4 ≤ n then .critical
  else if n = 3 then .high
  else if n = 2 then .medium
  else if n = 1 then .low
  else .info

/-- Modelled from the spec: avg_severity maintained as a running weighted
average of observed severities, weighted by the previous
frequency_observed. -/
def updateAvgSeverity (old : Option Severity) (freq : Nat) (observed : Severity) : Severity :=
  match old with
  | none => observed
  | some s => severityOfRank ((severityRank s * freq + severityRank observed) / (freq + 1))

/-- The delta carried by a Pattern Store upsert: the feedback outcome and
the observed severity. -/
structure UpsertDelta where
  outcome : Outcome
  severity : Severity
deriving DecidableEq, Repr

/-- Modelled from the spec: one upsert step on a single pattern.
Increments the counter selected by the outcome, increments
frequency_observed, recomputes precision_score from the two counters,
recomputes confidence_score from frequency_observed, and updates
avg_severity. -/
def applyDelta (p : RiskPattern) (d : UpsertDelta) : RiskPattern :=
  let tp := p.true_positive_count + (if d.outcome = .true_positive then 1 else 0)
  let fp := p.false_positive_count + (if d.outcome = .false_positive then 1 else 0)
  let freq := p.frequency_observed + 1
  { p with
    true_positive_count := tp
    false_positive_count := fp
    frequency_observed := freq
    precision_score := recomputePrecision tp fp
    confidence_score := some (recomputeConfidence freq)
    avg_severity := some (updateAvgSeverity p.avg_severity p.frequency_observed d.severity) }

/-- Modelled from the spec: the pattern created the first time a
pattern_key is referenced, immediately carrying its first observation. -/
def newPattern (key fw ind : String) (d : UpsertDelta) : RiskPattern :=
  applyDelta
    { pattern_key := key
      pattern_description := ind
      framework := fw
      document_type := none
      risk_indicator := ind
      frequency_observed := 0
      true_positive_count := 0
      false_positive_count := 0
      precision_score := none
      confidence_score := none
      avg_severity := none
      learned_rule := ""
      remediation_template := "" } d

/-- The Pattern Store: the risk_patterns table, pattern_key unique. -/
abbrev PatternStore := List RiskPattern

/-- Modelled from the spec: Pattern Store upsert, atomic per key.  Updates
the pattern with the given key when present (keys are unique in
schema.sql), otherwise creates it. -/
def PatternStore.upsert : PatternStore → String → String → String → UpsertDelta → PatternStore
  | [], key, fw, ind, d => [newPattern key fw ind d]
  | p :: rest, key, fw, ind, d =>
      if p.pattern_key = key then applyDelta p d :: rest
      else p :: PatternStore.upsert rest key fw ind d

/-- Pattern Store lookup by pattern_key. -/
def PatternStore.get : PatternStore → String → Option RiskPattern
  | [], _ => none
  | p :: rest, key => if p.pattern_key = key then some p else PatternStore.get rest key

/-- First seed row of risk_patterns in schema.sql. -/
def seedPattern1 : RiskPattern :=
  { pattern_key := "unlimited_liability_contract"
    pattern_description := "Unlimited liability clause in contracts"
    framework := "contract_risk"
    document_type := some "contract"
    risk_indicator := "unlimited liability"
    frequency_observed := 45
    true_positive_count := 42
    false_positive_count := 3
    precision_score := some 9333
    confidence_score := some 8900
    avg_severity := some .high
    learned_rule := "Contracts with unlimited liability clauses pose significant financial risk. 93% of flagged instances are confirmed risks."
    remediation_template := "Negotiate a liability cap equal to 12 months of contract value or $1M, whichever is lower." }

/-- Second seed row of risk_patterns in schema.sql. -/
def seedPattern2 : RiskPattern :=
  { pattern_key := "missing_data_retention_gdpr"
    pattern_description := "Missing data retention period in GDPR context"
    framework := "gdpr"
    document_type := some "policy"
    risk_indicator := "no explicit retention period"
    frequency_observed := 67
    true_positive_count := 58
    false_positive_count := 9
    precision_score := some 8657
    confidence_score := some 9200
    avg_severity := some .medium
    learned_rule := "Documents lacking explicit data retention periods violate GDPR Article 5(1)(e). 87% precision."
    remediation_template := "Add clause: \"Personal data will be retained for no longer than [X months/years] unless legally required.\"" }

/-- Third seed row of risk_patterns in schema.sql. -/
def seedPattern3 : RiskPattern :=
  { pattern_key := "no_encryption_mention_soc2"
    pattern_description := "No mention of encryption in SOC2 context"
    framework := "soc2"
    document_type := some "policy"
    risk_indicator := "no encryption at rest"
    frequency_observed := 34
    true_positive_count := 30
    false_positive_count := 4
    precision_score := some 8824
    confidence_score := some 7800
    avg_severity := some .high
    learned_rule := "SOC2 security controls require encryption. 88% of documents missing encryption mentions are non-compliant."
    remediation_template := "Add explicit encryption requirements: \"All data at rest must be encrypted using AES-256 or equivalent.\"" }

/-- The seed content of the risk_patterns table (schema.sql INSERT). -/
def seedRiskPatterns : PatternStore := [seedPattern1, seedPattern2, seedPattern3]

/-- Row of the compliance_findings table (schema.sql): the episodic
memory unit.  Timestamps are embedded as natural numbers. -/
structure Finding where
  id : Nat
  document_id : Nat
  framework : String
  finding_type : String
  severity : Severity
  title : String
  description : String
  evidence : String
  user_feedback : Option String
  user_action_taken : Option String
  created_at : Nat
  resolved_at : Option Nat
deriving DecidableEq, Repr

/-- Errors of Finding Store operations. -/
inductive StoreError where
  | NotFound
  | AlreadyResolved
deriving DecidableEq, Repr

/-- The Finding Store: the compliance_findings table. -/
abbrev FindingStore := List Finding

/-- Finding Store lookup by id. -/
def FindingStore.get : FindingStore → Nat → Option Finding
  | [], _ => none
  | f :: rest, i => if f.id = i then some f else FindingStore.get rest i

/-- Modelled from the spec: attachFeedback on the Finding Store.  Fails
with NotFound when the id is unknown and with AlreadyResolved when
feedback was previously set; otherwise records the feedback and the
optional action taken, and sets resolved_at to the current time. -/
def FindingStore.attachFeedback :
    FindingStore → Nat → String → Option String → Nat → Except StoreError FindingStore
  | [], _, _, _, _ => .error .NotFound
  | f :: rest, i, fb, act, now =>
      if f.id = i then
        if f.user_feedback.isSome then .error .AlreadyResolved
        else .ok ({ f with user_feedback := some fb, user_action_taken := act,
                           resolved_at := some now } :: rest)
      else
        match FindingStore.attachFeedback rest i fb act now with
        | .error e => .error e
        | .ok rest' => .ok (f :: rest')

/-- Error raised by the Pattern Learner on an invalid feedback value. -/
inductive LearnerError where
  | ConfigurationError (value : String)
deriving DecidableEq, Repr

/-- Modelled from the spec: the Pattern Learner feedback mapping.
accepted maps to true_positive; rejected and false_positive map to
false_positive; every other value is a ConfigurationError. -/
def mapFeedback (feedback : String) : Except LearnerError Outcome :=
  if feedback = "accepted" then .ok .true_positive
  else if feedback = "rejected" then .ok .false_positive
  else if feedback = "false_positive" then .ok .false_positive
  else .error (.ConfigurationError feedback)

/-- Lower-case a character and replace a space by an underscore. -/
def slugChar (c : Char) : Char :=
  if c = ' ' then '_' else c.toLower

/-- Modelled from the spec: the deterministic normalization producing a
stable pattern_key from a finding, here slugified title plus framework. -/
def patternKeyOf (f : Finding) : String :=
  String.mk (f.title.toList.map slugChar) ++ "_" ++ f.framework

/-- State of the Pattern Learner: the Pattern Store plus the
processed-marker set of finding ids that already contributed. -/
structure LearnerState where
  patterns : PatternStore
  processed : List Nat
deriving DecidableEq, Repr

/-- Modelled from the spec: the Pattern Learner step on one resolved
finding.  A finding already carrying a processed marker is skipped; a
finding with no or invalid feedback contributes nothing; otherwise the
mapped outcome is upserted into the Pattern Store and the finding is
marked processed. -/
def processFinding (st : LearnerState) (f : Finding) : LearnerState :=
  if f.id ∈ st.processed then st
  else
    match f.user_feedback with
    | none => st
    | some fb =>
        match mapFeedback fb with
        | .error _ => st
        | .ok outcome =>
            { patterns := PatternStore.upsert st.patterns (patternKeyOf f) f.framework
                f.evidence ⟨outcome, f.severity⟩
              processed := f.id :: st.processed }

/-- Whether the second character list starts with the first. -/
def charsStartWith : List Char → List Char → Bool
  | [], _ => true
  | _ :: _, [] => false
  | c :: cs, d :: ds => c = d && charsStartWith cs ds

/-- Whether the first character list contains the second as a contiguous
run. -/
def charsContain : List Char → List Char → Bool
  | [], needle => needle.isEmpty
  | h :: t, needle => charsStartWith needle (h :: t) || charsContain t needle

/-- Substring test used by the Pattern Matcher for risk_indicator
presence in the document text. -/
def textContains (haystack needle : String) : Bool :=
  charsContain haystack.toList needle.toList

/-- Modelled from the spec: Matcher eligibility of one pattern for a
document.  The pattern must target the requested framework or the
wildcard, match the document type when both are stated, have its
risk_indicator present in the text, and clear the minimum-sample and
minimum-confidence thresholds. -/
def matcherEligible (p : RiskPattern) (documentText framework : String)
    (documentType : Option String) (minSample minConfidence : Nat) : Bool :=
  (p.framework == framework || p.framework == "all") &&
  (match p.document_type, documentType with
   | some t, some u => t == u
   | _, _ => true) &&
  textContains documentText p.risk_indicator &&
  decide (minSample ≤ p.frequency_observed) &&
  (match p.confidence_score with
   | some c => decide (minConfidence ≤ c)
   | none => false)

/-- Modelled from the spec: the Matcher ordering, descending
precision_score, ties by descending frequency_observed, then by
pattern_key. -/
def patternOrd (p q : RiskPattern) : Bool :=
  let pp := p.precision_score.getD 0
  let qp := q.precision_score.getD 0
  if pp ≠ qp then decide (qp < pp)
  else if p.frequency_observed ≠ q.frequency_observed then
    decide (q.frequency_observed < p.frequency_observed)
  else decide (p.pattern_key ≤ q.pattern_key)

/-- Modelled from the spec: the Pattern Matcher.  Read-only selection of
the eligible patterns, sorted by the Matcher ordering. -/
def matchPatterns (st : PatternStore) (documentText framework : String)
    (documentType : Option String) (minSample minConfidence : Nat) : List RiskPattern :=
  List.insertionSort (fun p q => patternOrd p q = true)
    (st.filter (fun p => matcherEligible p documentText framework documentType minSample minConfidence))

/-- The precision-from-counters invariant at the resolution of the
DECIMAL(5,4) column: precision_score is exactly the value recomputed from
the two counters. -/
def patternInvariant (p : RiskPattern) : Prop :=
  p.precision_score = recomputePrecision p.true_positive_count p.false_positive_count

instance (p : RiskPattern) : Decidable (patternInvariant p) := by
  unfold patternInvariant; infer_instance

/-- A raw finding as emitted by a Framework Analyzer: the fields of a
Finding minus identity and persistence fields. -/
structure RawFinding where
  framework : String
  finding_type : String
  severity : Severity
  title : String
  description : String
  evidence : String
deriving DecidableEq, Repr

/-- Modelled from the spec: the result of one Framework Analyzer
invocation as seen by the Orchestrator, either the produced findings or
an isolated AnalyzerFailed with its cause. -/
inductive AnalyzerResult where
  | success (findings : List RawFinding)
  | failed (cause : String)
deriving DecidableEq, Repr

/-- Whether an analyzer invocation succeeded. -/
def AnalyzerResult.isSuccess : AnalyzerResult → Bool
  | .success _ => true
  | .failed _ => false

/-- Terminal states of an Orchestrator run. -/
inductive RunState where
  | Completed
  | Failed
deriving DecidableEq, Repr

/-- Modelled from the spec: the summary an Orchestrator run terminates
with, carrying the merged persisted findings and the per-framework
failures. -/
structure RunSummary where
  state : RunState
  persistedFindings : List RawFinding
  failures : List (String × String)
deriving DecidableEq, Repr

/-- Modelled from the spec: the Reflect step over the per-framework
analyzer results.  Per-framework failures are recorded in the summary;
the run is Failed only when no framework succeeded. -/
def reflectRun (results : List (String × AnalyzerResult)) : RunSummary :=
  { state := if results.any (fun r => r.2.isSuccess) then .Completed else .Failed
    persistedFindings :=
      (results.map (fun r => match r.2 with | .success fs => fs | .failed _ => [])).flatten
    failures :=
      results.filterMap (fun r => match r.2 with | .success _ => none | .failed c => some (r.1, c)) }

/-- Modelled from the spec: points deducted from 100 per finding of each
severity; critical deducts most, info deducts none. -/
def severityDeduction : Severity → Nat
  | .critical => 25
  | .high => 15
  | .medium => 8
  | .low => 3
  | .info => 0

/-- Number of findings of a given severity. -/
def countSeverity (fs : List RawFinding) (s : Severity) : Nat :=
  (fs.filter (fun f => f.severity = s)).length

/-- Modelled from the spec: overall_score as a weighted deduction from
100 driven by severities, clamped to the interval from 0 to 100. -/
def computeOverallScore (fs : List RawFinding) : Nat :=
  100 - min ((fs.map (fun f => severityDeduction f.severity)).sum) 100

/-- Row of the compliance_scores table (schema.sql) as written by the
Reflect step. -/
structure ComplianceScoreRow where
  document_id : Nat
  framework : String
  overall_score : Nat
  critical_issues_count : Nat
  high_issues_count : Nat
  medium_issues_count : Nat
  low_issues_count : Nat
deriving DecidableEq, Repr

/-- Modelled from the spec: the ComplianceScore row persisted by
Reflect for one document and framework. -/
def reflectScore (docId : Nat) (fw : String) (fs : List RawFinding) : ComplianceScoreRow :=
  { document_id := docId
    framework := fw
    overall_score := computeOverallScore fs
    critical_issues_count := countSeverity fs .critical
    high_issues_count := countSeverity fs .high
    medium_issues_count := countSeverity fs .medium
    low_issues_count := countSeverity fs .low }

/-- Row of the documents table (schema.sql). -/
structure Document where
  id : Nat
  filename : String
  document_type : Option String
  uploaded_at : Nat
  last_analyzed_at : Option Nat
  status : String
  is_archived : Bool
deriving DecidableEq, Repr

/-- Row of the alerts table (schema.sql), reduced to the columns the
overview view reads. -/
structure Alert where
  id : Nat
  document_id : Nat
  severity : Severity
  is_sent : Bool
deriving DecidableEq, Repr

/-- The relational state the document_compliance_overview view reads. -/
structure Database where
  documents : List Document
  findings : List Finding
  alerts : List Alert
  scores : List ComplianceScoreRow
deriving DecidableEq, Repr

/-- One row of the document_compliance_overview view (schema.sql). -/
structure OverviewRow where
  id : Nat
  filename : String
  document_type : Option String
  uploaded_at : Nat
  last_analyzed_at : Option Nat
  critical_findings : Nat
  high_findings : Nat
  medium_findings : Nat
  low_findings : Nat
  open_alerts : Nat
  latest_compliance_score : Option Nat
deriving DecidableEq, Repr

/-- The document_compliance_overview view of schema.sql: one row per
non-archived document, counting its findings per severity, its unsent
alerts, and the maximum of its overall scores. -/
def documentComplianceOverview (db : Database) : List OverviewRow :=
  (db.documents.filter (fun d => d.is_archived = false)).map (fun d =>
    { id := d.id
      filename := d.filename
      document_type := d.document_type
      uploaded_at := d.uploaded_at
      last_analyzed_at := d.last_analyzed_at
      critical_findings :=
        (db.findings.filter (fun f => f.document_id = d.id ∧ f.severity = .critical)).length
      high_findings :=
        (db.findings.filter (fun f => f.document_id = d.id ∧ f.severity = .high)).length
      medium_findings :=
        (db.findings.filter (fun f => f.document_id = d.id ∧ f.severity = .medium)).length
      low_findings :=
        (db.findings.filter (fun f => f.document_id = d.id ∧ f.severity = .low)).length
      open_alerts :=
        (db.alerts.filter (fun a => a.document_id = d.id ∧ a.is_sent = false)).length
      latest_compliance_score :=
        ((db.scores.filter (fun s => s.document_id = d.id)).map
          (fun s => s.overall_score)).max? })

/-- A file as seen by the browser drop event, from
apps/frontend/components/DocumentViewer.tsx. -/
structure WebFile where
  name : String
  type : String
deriving DecidableEq, Repr

/-- The component state handleDrop leaves behind: the file passed to
onUpload, when any, and the drag-over highlight flag. -/
structure DropState where
  uploaded : Option WebFile
  isDragging : Bool
deriving DecidableEq, Repr

/-- handleDrop of DocumentViewer.tsx: clears the drag highlight, looks
for the first dropped file whose MIME type is application/pdf, and calls
onUpload with it exactly when one exists. -/
def handleDrop (files : List WebFile) : DropState :=
  let pdfFile := files.find? (fun f => f.type == "application/pdf")
  match pdfFile with
  | some f => { uploaded := some f, isDragging := false }
  | none => { uploaded := none, isDragging := false }

/-- Every upsert of a single pattern re-derives precision_score from the
updated counters. -/
lemma applyDelta_invariant (p : RiskPattern) (d : UpsertDelta) :
    patternInvariant (applyDelta p d) := by
  simp [patternInvariant, applyDelta]

/-- Under the invariant, precision_score is NULL exactly when both
counters are zero. -/
lemma invariant_none_iff (p : RiskPattern) (h : patternInvariant p) :
    p.precision_score = none ↔ p.true_positive_count + p.false_positive_count = 0 := by
  rw [h]
  unfold recomputePrecision
  split
  · simp [*]
  · simp [*]

/-- The precision-from-counters invariant is preserved by every Pattern
Store upsert. -/
lemma upsert_preserves_invariant (st : PatternStore) (key fw ind : String) (d : UpsertDelta) :
    (∀ p ∈ st, patternInvariant p) →
    ∀ p ∈ PatternStore.upsert st key fw ind d, patternInvariant p := by
  induction st with
  | nil =>
      intro _ p hp
      simp only [PatternStore.upsert, List.mem_singleton] at hp
      subst hp
      exact applyDelta_invariant _ _
  | cons q rest ih =>
      intro h p hp
      unfold PatternStore.upsert at hp
      by_cases hq : q.pattern_key = key
      · simp only [if_pos hq, List.mem_cons] at hp
        rcases hp with hp | hp
        · subst hp; exact applyDelta_invariant _ _
        · exact h p (List.mem_cons_of_mem _ hp)
      · simp only [if_neg hq, List.mem_cons] at hp
        rcases hp with hp | hp
        · subst hp; exact h _ (List.mem_cons_self _ _)
        · exact ih (fun r hr => h r (List.mem_cons_of_mem _ hr)) p hp

/-- C1 (amended): after every upsert, every pattern of the Pattern Store
has precision_score equal to the value recomputed from
true_positive_count and false_positive_count at the resolution of the
DECIMAL(5,4) column, and precision_score is NULL exactly when the
denominator of the precision quotient is zero; the stored score never
drifts from the counters. -/
theorem c1_precision_recomputed_after_upsert (st : PatternStore) (key fw ind : String)
    (d : UpsertDelta) (h : ∀ p ∈ st, patternInvariant p) :
    ∀ p ∈ PatternStore.upsert st key fw ind d,
      patternInvariant p ∧
      (p.precision_score = none ↔ p.true_positive_count + p.false_positive_count = 0) := by
  intro p hp
  have step := upsert_preserves_invariant st key fw ind d h p hp
  exact ⟨step, invariant_none_iff p step⟩

/-- C1 witness: the amended statement applied to the seeded Pattern
Store, on the pattern updated by an accepted-feedback upsert for the key
missing_data_retention_gdpr. -/
theorem c1_precision_recomputed_after_upsert_witness :
    patternInvariant (applyDelta seedPattern2 ⟨Outcome.true_positive, Severity.medium⟩) ∧
    ((applyDelta seedPattern2 ⟨Outcome.true_positive, Severity.medium⟩).precision_score = none ↔
      (applyDelta seedPattern2 ⟨Outcome.true_positive, Severity.medium⟩).true_positive_count +
        (applyDelta seedPattern2 ⟨Outcome.true_positive, Severity.medium⟩).false_positive_count = 0) :=
  c1_precision_recomputed_after_upsert seedRiskPatterns "missing_data_retention_gdpr" "gdpr"
    "no explicit retention period" ⟨Outcome.true_positive, Severity.medium⟩ (by decide)
    (applyDelta seedPattern2 ⟨Outcome.true_positive, Severity.medium⟩) (by decide)

/-- C1 counterexample: after an upsert on the Pattern Store seeded by
schema.sql, the pattern unlimited_liability_contract has a nonzero
denominator yet its stored precision_score 0.9333 is not exactly equal
to 42 / 45: the DECIMAL(5,4) column can only hold the quotient rounded
to four decimal places. -/
theorem c1_precision_exact_counterexample :
    PatternStore.get
        (PatternStore.upsert seedRiskPatterns "no_encryption_mention_soc2" "soc2"
          "no encryption at rest" ⟨Outcome.true_positive, Severity.high⟩)
        "unlimited_liability_contract" = some seedPattern1 ∧
    seedPattern1.true_positive_count + seedPattern1.false_positive_count ≠ 0 ∧
    seedPattern1.precision_score = some 9333 ∧
    (9333 : ℚ) / 10000 ≠ (seedPattern1.true_positive_count : ℚ) /
      ((seedPattern1.true_positive_count : ℚ) + (seedPattern1.false_positive_count : ℚ)) := by
  refine ⟨by decide, by decide, by decide, ?_⟩
  show (9333 : ℚ) / 10000 ≠ (42 : ℚ) / ((42 : ℚ) + (3 : ℚ))
  norm_num

/-- C2: the Pattern Learner step is idempotent on a finding: processing
the same resolved finding a second time is a no-op on the whole learner
state, so true_positive_count, false_positive_count and
frequency_observed of every pattern are unchanged by the second
application; the processed-marker makes the second application skip. -/
theorem c2_learner_idempotent (st : LearnerState) (f : Finding) :
    processFinding (processFinding st f) f = processFinding st f := by
  by_cases h : f.id ∈ st.processed
  · simp [processFinding, h]
  · cases hfb : f.user_feedback with
    | none => simp [processFinding, h, hfb]
    | some fb =>
        cases hmf : mapFeedback fb with
        | error e => simp [processFinding, h, hfb, hmf]
        | ok outcome => simp [processFinding, h, hfb, hmf, List.mem_cons]

/-- C3: an Orchestrator run in which at least one framework succeeds
terminates Completed, and every per-framework failure is recorded in the
run summary instead of aborting the run; the run is Failed only when
every requested framework fails. -/
theorem c3_isolated_failure_completes (results : List (String × AnalyzerResult))
    (h : ∃ r ∈ results, r.2.isSuccess = true) :
    (reflectRun results).state = RunState.Completed ∧
    ∀ fw cause, (fw, AnalyzerResult.failed cause) ∈ results →
      (fw, cause) ∈ (reflectRun results).failures := by
  constructor
  · have hany : results.any (fun r => r.2.isSuccess) = true := List.any_eq_true.mpr h
    simp [reflectRun, hany]
  · intro fw cause hmem
    show (fw, cause) ∈ results.filterMap _
    rw [List.mem_filterMap]
    exact ⟨(fw, AnalyzerResult.failed cause), hmem, rfl⟩

/-- A sample GDPR finding used by concrete run scenarios. -/
def sampleGdprFinding : RawFinding :=
  { framework := "gdpr"
    finding_type := "gap"
    severity := .medium
    title := "Missing retention period"
    description := "No retention period stated"
    evidence := "data will be stored" }

/-- A sample contract-risk finding used by concrete run scenarios. -/
def sampleContractFinding : RawFinding :=
  { framework := "contract_risk"
    finding_type := "risk"
    severity := .high
    title := "Unlimited liability"
    description := "Liability is uncapped"
    evidence := "unlimited liability" }

/-- The analyzer results of a three-framework run in which exactly the
SOC2 analyzer times out. -/
def sampleRunResults : List (String × AnalyzerResult) :=
  [("gdpr", .success [sampleGdprFinding]),
   ("soc2", .failed "timeout"),
   ("contract_risk", .success [sampleContractFinding])]

/-- C3 witness: the three-framework run with one timeout ends Completed,
persists the two successful frameworks, and records exactly one
failure. -/
theorem c3_isolated_failure_completes_witness :
    (reflectRun sampleRunResults).state = RunState.Completed ∧
    (reflectRun sampleRunResults).persistedFindings =
      [sampleGdprFinding, sampleContractFinding] ∧
    (reflectRun sampleRunResults).failures = [("soc2", "timeout")] :=
  ⟨(c3_isolated_failure_completes sampleRunResults
      ⟨("gdpr", .success [sampleGdprFinding]), by decide, rfl⟩).1,
   by decide, by decide⟩

/-- C4: the Pattern Matcher never returns a pattern whose
frequency_observed is below the configured minimum-sample threshold,
whatever its precision_score. -/
theorem c4_matcher_min_sample (st : PatternStore) (text fw : String) (dt : Option String)
    (minSample minConfidence : Nat) :
    ∀ p ∈ matchPatterns st text fw dt minSample minConfidence,
      minSample ≤ p.frequency_observed := by
  intro p hp
  unfold matchPatterns at hp
  rw [List.mem_insertionSort, List.mem_filter] at hp
  have hb := hp.2
  unfold matcherEligible at hb
  simp only [Bool.and_eq_true, decide_eq_true_eq] at hb
  exact hb.1.2

/-- C4 witness: on the seeded Pattern Store, the Matcher returns the
unlimited-liability pattern for a contract mentioning it, and the
theorem yields its sample bound. -/
theorem c4_matcher_min_sample_witness :
    seedPattern1 ∈ matchPatterns seedRiskPatterns
      "This contract imposes unlimited liability on the vendor" "contract_risk"
      (some "contract") 3 0 ∧
    3 ≤ seedPattern1.frequency_observed :=
  ⟨by decide,
   c4_matcher_min_sample seedRiskPatterns
     "This contract imposes unlimited liability on the vendor" "contract_risk"
     (some "contract") 3 0 seedPattern1 (by decide)⟩

/-- Upsert never changes the key of a pattern. -/
lemma applyDelta_key (p : RiskPattern) (d : UpsertDelta) :
    (applyDelta p d).pattern_key = p.pattern_key := rfl

/-- Looking a key up after an upsert on that key returns the pattern with
the delta applied. -/
lemma get_upsert_of_get_some (st : PatternStore) (key fw ind : String) (d : UpsertDelta)
    (p : RiskPattern) (h : PatternStore.get st key = some p) :
    PatternStore.get (PatternStore.upsert st key fw ind d) key = some (applyDelta p d) := by
  induction st with
  | nil => simp [PatternStore.get] at h
  | cons q rest ih =>
      by_cases hq : q.pattern_key = key
      · have hp : q = p := by simpa [PatternStore.get, hq] using h
        subst hp
        simp [PatternStore.upsert, PatternStore.get, hq, applyDelta_key]
      · have h' : PatternStore.get rest key = some p := by
          simpa [PatternStore.get, hq] using h
        simp [PatternStore.upsert, PatternStore.get, hq, ih h']

/-- A true-positive delta increments exactly the true-positive counter. -/
lemma applyDelta_counts_tp (p : RiskPattern) (sev : Severity) :
    (applyDelta p ⟨Outcome.true_positive, sev⟩).true_positive_count = p.true_positive_count + 1 ∧
    (applyDelta p ⟨Outcome.true_positive, sev⟩).false_positive_count = p.false_positive_count := by
  simp [applyDelta]

/-- A false-positive delta increments exactly the false-positive
counter. -/
lemma applyDelta_counts_fp (p : RiskPattern) (sev : Severity) :
    (applyDelta p ⟨Outcome.false_positive, sev⟩).false_positive_count = p.false_positive_count + 1 ∧
    (applyDelta p ⟨Outcome.false_positive, sev⟩).true_positive_count = p.true_positive_count := by
  simp [applyDelta]

/-- C5: the Learner feedback mapping is total over exactly the three
feedback values, accepted giving true_positive, rejected and
false_positive giving false_positive, every other value a
ConfigurationError; an accepted-feedback upsert on a stored pattern key
increments true_positive_count by exactly one and a rejected-feedback
upsert increments false_positive_count by exactly one, precision being
recomputed both times. -/
theorem c5_feedback_mapping :
    mapFeedback "accepted" = Except.ok Outcome.true_positive ∧
    mapFeedback "rejected" = Except.ok Outcome.false_positive ∧
    mapFeedback "false_positive" = Except.ok Outcome.false_positive ∧
    (∀ s : String, s ≠ "accepted" → s ≠ "rejected" → s ≠ "false_positive" →
      mapFeedback s = Except.error (LearnerError.ConfigurationError s)) ∧
    (∀ (st : PatternStore) (key fw ind : String) (sev : Severity) (p : RiskPattern),
      PatternStore.get st key = some p →
      PatternStore.get (PatternStore.upsert st key fw ind ⟨Outcome.true_positive, sev⟩) key =
        some (applyDelta p ⟨Outcome.true_positive, sev⟩) ∧
      (applyDelta p ⟨Outcome.true_positive, sev⟩).true_positive_count =
        p.true_positive_count + 1 ∧
      (applyDelta p ⟨Outcome.true_positive, sev⟩).false_positive_count =
        p.false_positive_count ∧
      patternInvariant (applyDelta p ⟨Outcome.true_positive, sev⟩)) ∧
    (∀ (st : PatternStore) (key fw ind : String) (sev : Severity) (p : RiskPattern),
      PatternStore.get st key = some p →
      PatternStore.get (PatternStore.upsert st key fw ind ⟨Outcome.false_positive, sev⟩) key =
        some (applyDelta p ⟨Outcome.false_positive, sev⟩) ∧
      (applyDelta p ⟨Outcome.false_positive, sev⟩).false_positive_count =
        p.false_positive_count + 1 ∧
      (applyDelta p ⟨Outcome.false_positive, sev⟩).true_positive_count =
        p.true_positive_count ∧
      patternInvariant (applyDelta p ⟨Outcome.false_positive, sev⟩)) := by
  refine ⟨rfl, rfl, rfl, ?_, ?_, ?_⟩
  · intro s h1 h2 h3
    simp [mapFeedback, h1, h2, h3]
  · intro st key fw ind sev p h
    exact ⟨get_upsert_of_get_some st key fw ind _ p h, (applyDelta_counts_tp p sev).1,
      (applyDelta_counts_tp p sev).2, applyDelta_invariant _ _⟩
  · intro st key fw ind sev p h
    exact ⟨get_upsert_of_get_some st key fw ind _ p h, (applyDelta_counts_fp p sev).1,
      (applyDelta_counts_fp p sev).2, applyDelta_invariant _ _⟩

/-- C5 witness: an invalid feedback value is rejected, and on the seeded
store an accepted upsert on missing_data_retention_gdpr moves the
true-positive counter from 58 to 59 while a rejected upsert moves the
false-positive counter from 9 to 10. -/
theorem c5_feedback_mapping_witness :
    mapFeedback "maybe" = Except.error (LearnerError.ConfigurationError "maybe") ∧
    PatternStore.get (PatternStore.upsert seedRiskPatterns "missing_data_retention_gdpr" "gdpr"
        "no explicit retention period" ⟨Outcome.true_positive, Severity.medium⟩)
      "missing_data_retention_gdpr" =
      some (applyDelta seedPattern2 ⟨Outcome.true_positive, Severity.medium⟩) ∧
    (applyDelta seedPattern2 ⟨Outcome.true_positive, Severity.medium⟩).true_positive_count = 59 ∧
    PatternStore.get (PatternStore.upsert seedRiskPatterns "missing_data_retention_gdpr" "gdpr"
        "no explicit retention period" ⟨Outcome.false_positive, Severity.medium⟩)
      "missing_data_retention_gdpr" =
      some (applyDelta seedPattern2 ⟨Outcome.false_positive, Severity.medium⟩) ∧
    (applyDelta seedPattern2 ⟨Outcome.false_positive, Severity.medium⟩).false_positive_count = 10 := by
  refine ⟨?_, ?_, by decide, ?_, by decide⟩
  · exact c5_feedback_mapping.2.2.2.1 "maybe" (by decide) (by decide) (by decide)
  · exact (c5_feedback_mapping.2.2.2.2.1 seedRiskPatterns "missing_data_retention_gdpr" "gdpr"
      "no explicit retention period" Severity.medium seedPattern2 (by decide)).1
  · exact (c5_feedback_mapping.2.2.2.2.2 seedRiskPatterns "missing_data_retention_gdpr" "gdpr"
      "no explicit retention period" Severity.medium seedPattern2 (by decide)).1

/-- attachFeedback on an unknown id fails with NotFound. -/
lemma attachFeedback_not_found (st : FindingStore) (i : Nat) (fb : String) (act : Option String)
    (now : Nat) (h : FindingStore.get st i = none) :
    FindingStore.attachFeedback st i fb act now = .error .NotFound := by
  induction st with
  | nil => rfl
  | cons f rest ih =>
      by_cases hf : f.id = i
      · simp [FindingStore.get, hf] at h
      · have h' : FindingStore.get rest i = none := by simpa [FindingStore.get, hf] using h
        simp [FindingStore.attachFeedback, hf, ih h']

/-- attachFeedback on a finding that already carries feedback fails with
AlreadyResolved. -/
lemma attachFeedback_already_resolved (st : FindingStore) (i : Nat) (fb : String)
    (act : Option String) (now : Nat) (f : Finding) (h : FindingStore.get st i = some f)
    (hres : f.user_feedback.isSome = true) :
    FindingStore.attachFeedback st i fb act now = .error .AlreadyResolved := by
  induction st with
  | nil => simp [FindingStore.get] at h
  | cons g rest ih =>
      by_cases hg : g.id = i
      · have hgf : g = f := by simpa [FindingStore.get, hg] using h
        subst hgf
        simp [FindingStore.attachFeedback, hg, hres]
      · have h' : FindingStore.get rest i = some f := by simpa [FindingStore.get, hg] using h
        simp [FindingStore.attachFeedback, hg, ih h']

/-- attachFeedback on a known, unresolved finding succeeds and the
finding afterwards carries the feedback, the action and resolved_at. -/
lemma attachFeedback_success (st : FindingStore) (i : Nat) (fb : String)
    (act : Option String) (now : Nat) (f : Finding) (h : FindingStore.get st i = some f)
    (hres : f.user_feedback = none) :
    ∃ st', FindingStore.attachFeedback st i fb act now = .ok st' ∧
      FindingStore.get st' i = some
        { f with user_feedback := some fb, user_action_taken := act,
                 resolved_at := some now } := by
  induction st with
  | nil => simp [FindingStore.get] at h
  | cons g rest ih =>
      by_cases hg : g.id = i
      · have hgf : g = f := by simpa [FindingStore.get, hg] using h
        subst hgf
        refine ⟨{ g with user_feedback := some fb, user_action_taken := act, resolved_at := some now } :: rest, ?_, ?_⟩
        · simp [FindingStore.attachFeedback, hg, hres]
        · simp [FindingStore.get, hg]
      · have h' : FindingStore.get rest i = some f := by simpa [FindingStore.get, hg] using h
        obtain ⟨rest', h1, h2⟩ := ih h'
        exact ⟨g :: rest', by simp [FindingStore.attachFeedback, hg, h1],
          by simpa [FindingStore.get, hg] using h2⟩

/-- C6: attachFeedback fails with NotFound on an unknown id, fails with
AlreadyResolved when feedback was previously set, and succeeds exactly
when the id exists with no prior feedback, in which case the stored
finding carries the feedback and resolved_at is set. -/
theorem c6_attach_feedback_once (st : FindingStore) (i : Nat) (fb : String)
    (act : Option String) (now : Nat) :
    (FindingStore.get st i = none →
      FindingStore.attachFeedback st i fb act now = .error .NotFound) ∧
    (∀ f, FindingStore.get st i = some f → f.user_feedback.isSome = true →
      FindingStore.attachFeedback st i fb act now = .error .AlreadyResolved) ∧
    (∀ f, FindingStore.get st i = some f → f.user_feedback = none →
      ∃ st', FindingStore.attachFeedback st i fb act now = .ok st' ∧
        FindingStore.get st' i = some
          { f with user_feedback := some fb, user_action_taken := act,
                   resolved_at := some now }) :=
  ⟨fun h => attachFeedback_not_found st i fb act now h,
   fun f h hres => attachFeedback_already_resolved st i fb act now f h hres,
   fun f h hres => attachFeedback_success st i fb act now f h hres⟩

/-- A small concrete Finding Store: finding 1 already resolved, finding 2
unresolved. -/
def sampleFindingResolved : Finding :=
  { id := 1
    document_id := 10
    framework := "gdpr"
    finding_type := "gap"
    severity := .medium
    title := "Missing retention period"
    description := "No retention period stated"
    evidence := "data will be stored"
    user_feedback := some "accepted"
    user_action_taken := none
    created_at := 5
    resolved_at := some 6 }

/-- A small concrete unresolved Finding. -/
def sampleFindingOpen : Finding :=
  { id := 2
    document_id := 10
    framework := "contract_risk"
    finding_type := "risk"
    severity := .high
    title := "Unlimited liability"
    description := "Liability is uncapped"
    evidence := "unlimited liability"
    user_feedback := none
    user_action_taken := none
    created_at := 5
    resolved_at := none }

/-- C6 witness: on the two-finding store, an unknown id gives NotFound,
the resolved finding gives AlreadyResolved, and the open finding accepts
feedback with resolved_at set. -/
theorem c6_attach_feedback_once_witness :
    FindingStore.attachFeedback [sampleFindingResolved, sampleFindingOpen] 7 "accepted" none 99 =
      .error .NotFound ∧
    FindingStore.attachFeedback [sampleFindingResolved, sampleFindingOpen] 1 "rejected" none 99 =
      .error .AlreadyResolved ∧
    FindingStore.attachFeedback [sampleFindingResolved, sampleFindingOpen] 2 "accepted" none 99 =
      .ok [sampleFindingResolved,
        { sampleFindingOpen with user_feedback := some "accepted", user_action_taken := none, resolved_at := some 99 }] := by
  refine ⟨?_, ?_, by rfl⟩
  · exact (c6_attach_feedback_once [sampleFindingResolved, sampleFindingOpen] 7 "accepted"
      none 99).1 (by decide)
  · exact (c6_attach_feedback_once [sampleFindingResolved, sampleFindingOpen] 1 "rejected"
      none 99).2.1 sampleFindingResolved (by decide) (by decide)

/-- The total deduction is the severity counts weighted by the
per-severity deductions; info findings contribute nothing. -/
lemma deduction_sum_eq (fs : List RawFinding) :
    (fs.map (fun f => severityDeduction f.severity)).sum =
      25 * countSeverity fs .critical + 15 * countSeverity fs .high +
        8 * countSeverity fs .medium + 3 * countSeverity fs .low := by
  induction fs with
  | nil => simp [countSeverity]
  | cons f t ih =>
      simp only [countSeverity] at ih ⊢
      rw [List.map_cons, List.sum_cons, ih]
      cases hs : f.severity <;>
        simp [List.filter_cons, hs, severityDeduction] <;>
          omega

/-- C7: a run with zero findings scores 100 with all four severity
counts zero in the persisted ComplianceScore row; in general the overall
score is 100 minus the severity-weighted deduction, clamped to the
interval from 0 to 100. -/
theorem c7_zero_findings_full_score (docId : Nat) (fw : String) :
    (∀ fs, (reflectScore docId fw fs).overall_score ≤ 100 ∧
      (reflectScore docId fw fs).overall_score =
        100 - min (25 * countSeverity fs .critical + 15 * countSeverity fs .high +
          8 * countSeverity fs .medium + 3 * countSeverity fs .low) 100) ∧
    (reflectScore docId fw []).overall_score = 100 ∧
    (reflectScore docId fw []).critical_issues_count = 0 ∧
    (reflectScore docId fw []).high_issues_count = 0 ∧
    (reflectScore docId fw []).medium_issues_count = 0 ∧
    (reflectScore docId fw []).low_issues_count = 0 := by
  constructor
  · intro fs
    constructor
    · simp only [reflectScore, computeOverallScore]
      omega
    · simp only [reflectScore, computeOverallScore, deduction_sum_eq]
  · simp [reflectScore, computeOverallScore, countSeverity]

/-- A sample critical finding for scoring scenarios. -/
def sampleCriticalFinding : RawFinding :=
  { framework := "contract_risk"
    finding_type := "violation"
    severity := .critical
    title := "Indemnity without cap"
    description := "Uncapped indemnification obligation"
    evidence := "shall indemnify without limit" }

/-- A sample low-severity finding for scoring scenarios. -/
def sampleLowFinding : RawFinding :=
  { framework := "gdpr"
    finding_type := "best_practice"
    severity := .low
    title := "Contact address missing"
    description := "No DPO contact stated"
    evidence := "contact us" }

/-- C8: for the same scoring policy, one critical plus one high finding
on a fresh document score strictly below a single low finding on a fresh
document. -/
theorem c8_severity_strictly_monotone (f1 f2 f3 : RawFinding)
    (h1 : f1.severity = .critical) (h2 : f2.severity = .high) (h3 : f3.severity = .low) :
    computeOverallScore [f1, f2] < computeOverallScore [f3] := by
  simp [computeOverallScore, h1, h2, h3, severityDeduction]

/-- C8 witness: the concrete critical-plus-high document scores strictly
below the concrete low-only document. -/
theorem c8_severity_strictly_monotone_witness :
    computeOverallScore [sampleCriticalFinding, sampleContractFinding] <
      computeOverallScore [sampleLowFinding] :=
  c8_severity_strictly_monotone sampleCriticalFinding sampleContractFinding sampleLowFinding
    rfl rfl rfl

/-- C9: a document with the archived flag set never contributes a row to
document_compliance_overview, while a non-archived document always does;
the underlying document row itself stays in the store, the view being a
pure read. -/
theorem c9_archived_excluded (db : Database) (d : Document)
    (hmem : d ∈ db.documents) (hids : (db.documents.map Document.id).Nodup) :
    ((∃ row ∈ documentComplianceOverview db, row.id = d.id) ↔ d.is_archived = false) ∧
    d ∈ db.documents := by
  refine ⟨⟨?_, ?_⟩, hmem⟩
  · rintro ⟨row, hrow, hid⟩
    unfold documentComplianceOverview at hrow
    rw [List.mem_map] at hrow
    obtain ⟨d', hd', hrow_eq⟩ := hrow
    rw [List.mem_filter] at hd'
    have hrid : row.id = d'.id := by rw [← hrow_eq]
    have hid' : d'.id = d.id := hrid ▸ hid
    have hdd : d' = d := List.inj_on_of_nodup_map hids hd'.1 hmem hid'
    have harch := hd'.2
    rw [hdd] at harch
    simpa using harch
  · intro harch
    exact ⟨_, List.mem_map_of_mem _ (List.mem_filter.mpr ⟨hmem, by simp [harch]⟩), rfl⟩

/-- A concrete archived document. -/
def sampleArchivedDoc : Document :=
  { id := 1
    filename := "old_contract.pdf"
    document_type := some "contract"
    uploaded_at := 1
    last_analyzed_at := some 2
    status := "analyzed"
    is_archived := true }

/-- A concrete active document. -/
def sampleActiveDoc : Document :=
  { id := 2
    filename := "policy.pdf"
    document_type := some "policy"
    uploaded_at := 3
    last_analyzed_at := none
    status := "pending"
    is_archived := false }

/-- A concrete database holding one archived and one active document. -/
def sampleDatabase : Database :=
  { documents := [sampleArchivedDoc, sampleActiveDoc]
    findings := [sampleFindingResolved, sampleFindingOpen]
    alerts := []
    scores := [] }

/-- C9 witness: in the concrete database, the archived document yields no
overview row yet remains stored, and the active document yields one. -/
theorem c9_archived_excluded_witness :
    ((∃ row ∈ documentComplianceOverview sampleDatabase, row.id = sampleArchivedDoc.id) ↔
      sampleArchivedDoc.is_archived = false) ∧
    sampleArchivedDoc ∈ sampleDatabase.documents :=
  c9_archived_excluded sampleDatabase sampleArchivedDoc (by decide) (by decide)

/-- C10: handleDrop always clears the drag highlight; it triggers no
upload when no dropped file has MIME type application/pdf, and uploads
exactly the first file of that MIME type when one exists. -/
theorem c10_drop_uploads_first_pdf (files : List WebFile) :
    (handleDrop files).isDragging = false ∧
    ((∀ f ∈ files, f.type ≠ "application/pdf") → (handleDrop files).uploaded = none) ∧
    (∀ l1 f l2, files = l1 ++ f :: l2 → f.type = "application/pdf" →
      (∀ g ∈ l1, g.type ≠ "application/pdf") → (handleDrop files).uploaded = some f) := by
  refine ⟨?_, ?_, ?_⟩
  · simp only [handleDrop]
    split <;> rfl
  · intro h
    have hf : files.find? (fun f => f.type == "application/pdf") = none :=
      List.find?_eq_none.mpr (fun x hx => by simpa [beq_iff_eq] using h x hx)
    simp [handleDrop, hf]
  · intro l1 f l2 hsplit hf hl1
    have h1 : List.find? (fun g => g.type == "application/pdf") l1 = none :=
      List.find?_eq_none.mpr (fun g hg => by simpa [beq_iff_eq] using hl1 g hg)
    have h2 : List.find? (fun g => g.type == "application/pdf") (f :: l2) = some f :=
      List.find?_cons_of_pos _ (by simp [beq_iff_eq, hf])
    rw [hsplit]
    simp [handleDrop, List.find?_append, h1, h2]

/-- C10 witness: dropping a text file, then two PDF files, uploads the
first PDF and clears the highlight; dropping only the text file uploads
nothing. -/
theorem c10_drop_uploads_first_pdf_witness :
    (handleDrop [⟨"notes.txt", "text/plain"⟩, ⟨"contract.pdf", "application/pdf"⟩,
      ⟨"policy.pdf", "application/pdf"⟩]).uploaded = some ⟨"contract.pdf", "application/pdf"⟩ ∧
    (handleDrop [⟨"notes.txt", "text/plain"⟩, ⟨"contract.pdf", "application/pdf"⟩,
      ⟨"policy.pdf", "application/pdf"⟩]).isDragging = false ∧
    (handleDrop [⟨"notes.txt", "text/plain"⟩]).uploaded = none :=
  ⟨(c10_drop_uploads_first_pdf _).2.2 [⟨"notes.txt", "text/plain"⟩]
      ⟨"contract.pdf", "application/pdf"⟩ [⟨"policy.pdf", "application/pdf"⟩] rfl rfl
      (by decide),
   (c10_drop_uploads_first_pdf _).1,
   (c10_drop_uploads_first_pdf _).2.1 (by decide)⟩

end SIAI
